import Mathlib

/-!
Verification of the lumen-lang batch refactoring scripts
(`refactor_parsers.py`, `refactor_parsers_phase2.py`, `refactor_to_lexeme.py`).

The scripts are regex-substitution pipelines over file text.  We embed the
fragment of Python's `re` engine they use (literals, character classes with
greedy `?`/`*`/`+` quantifiers, capture groups, a two-way literal
alternation, leftmost non-overlapping global substitution with `\1`-style
templates or a replacement function, and an optional `count` bound), then
transcribe every pattern of the three scripts.  Texts are `List Char`;
character classes are the ASCII fragment of Python's `\s`, `\w`, `\d`,
which coincides with Python on the ASCII inputs these scripts process.
-/

/-- The characters of a string literal, used to write texts and patterns. -/
def chars (s : String) : List Char := s.data

/-- Boolean prefix test on character lists (Python's `startswith`). -/
def isPrefixL : List Char → List Char → Bool
  | [], _ => true
  | _ :: _, [] => false
  | a :: as, b :: bs => a == b && isPrefixL as bs

/-- Boolean substring test: Python's `needle in haystack`. -/
def hasSub (n : List Char) : List Char → Bool
  | [] => n.isEmpty
  | s@(_ :: rest) => isPrefixL n s || hasSub n rest

/-- Character classes appearing in the scripts' regexes (ASCII fragment). -/
inductive CClass
  | ws            -- `\s`
  | wordc         -- `\w`
  | digit         -- `\d` / `[0-9]`
  | upperUnd      -- `[A-Z_]`
  | upperUndColon -- `[A-Z_:]`
  | notParen      -- `[^)]`
  | notBrace      -- `[^}]` (classes match newline regardless of DOTALL)
  | notQuote      -- `[^"]`
  | only (c : Char)
deriving DecidableEq

/-- Membership of a character in a class. -/
def CClass.mem : CClass → Char → Bool
  | .ws, c => c == ' ' || c == '\t' || c == '\n' || c == '\r' || c == '\x0b' || c == '\x0c'
  | .wordc, c => c.isAlphanum || c == '_'
  | .digit, c => c.isDigit
  | .upperUnd, c => c.isUpper || c == '_'
  | .upperUndColon, c => c.isUpper || c == '_' || c == ':'
  | .notParen, c => c != ')'
  | .notBrace, c => c != '\x7d'
  | .notQuote, c => c != '\"'
  | .only d, c => c == d

/-- Greedy quantifiers on a character class. -/
inductive Quant
  | one | opt | star | plus
deriving DecidableEq

/-- One instruction of a compiled pattern: a literal, a quantified class,
capture-group brackets, or a first-match literal alternation. -/
inductive Instr
  | lit (cs : List Char)
  | cls (c : CClass) (q : Quant)
  | gopen (n : Nat)
  | gclose (n : Nat)
  | alts (ls : List (List Char))

/-- A backtracking configuration: position in the text, the remaining
suffix (kept alongside the position to avoid repeated drops), the stack of
open groups (index, start) and the captures recorded so far
(index, start, stop). -/
structure Cfg where
  pos : Nat
  rem : List Char
  stk : List (Nat × Nat)
  caps : List (Nat × Nat × Nat)
deriving DecidableEq

/-- Length of the maximal run of class characters at the head of the text. -/
def maxRun (p : CClass) : List Char → Nat
  | [] => 0
  | c :: cs => if p.mem c then maxRun p cs + 1 else 0

/-- Candidate consumption lengths for a quantifier, in greedy (descending)
preference order, given the maximal run length. -/
def ksFor : Quant → Nat → List Nat
  | .one, m => if 1 ≤ m then [1] else []
  | .opt, m => if 1 ≤ m then [1, 0] else [0]
  | .star, m => (List.range (m + 1)).reverse
  | .plus, m => ((List.range m).map (· + 1)).reverse

/-- Concatenation of the images of a list, preserving order (used instead of
`List.flatMap` to keep all lemmas self-contained). -/
def catMap (f : α → List β) : List α → List β
  | [] => []
  | a :: as => f a ++ catMap f as

/-- Execute one instruction on one configuration, producing the successor
configurations in backtracking-preference order. -/
def step (i : Instr) (c : Cfg) : List Cfg :=
  match i with
  | .lit l =>
    if isPrefixL l c.rem then [{ c with pos := c.pos + l.length, rem := c.rem.drop l.length }]
    else []
  | .cls cc q =>
    (ksFor q (maxRun cc c.rem)).map fun k => { c with pos := c.pos + k, rem := c.rem.drop k }
  | .gopen n => [{ c with stk := (n, c.pos) :: c.stk }]
  | .gclose n =>
    match c.stk with
    | [] => []
    | (_, st) :: rest => [{ c with stk := rest, caps := (n, st, c.pos) :: c.caps }]
  | .alts ls =>
    (ls.filter fun l => isPrefixL l c.rem).map
      fun l => { c with pos := c.pos + l.length, rem := c.rem.drop l.length }

/-- Run a whole pattern over a priority-ordered list of configurations.
The head of the result is the match Python's backtracking engine finds.
(An empty configuration list short-circuits: no further instruction can
revive it, so this agrees with threading it through.) -/
def runAll : List Instr → List Cfg → List Cfg
  | [], cfgs => cfgs
  | _ :: _, [] => []
  | i :: rest, cfgs => runAll rest (catMap (step i) cfgs)

/-- Try to match the pattern at the start of `s` (Python's preference order:
the head configuration is the one backtracking finds first). -/
def matchHere (pat : List Instr) (s : List Char) : Option Cfg :=
  (runAll pat [⟨0, s, [], []⟩]).head?

/-- One piece of a `re.sub` template: a literal or a `\n`-style group reference. -/
inductive TItem
  | lit (s : List Char)
  | ref (n : Nat)

/-- Instantiate a template against the matched suffix and its captures. -/
def applyTemplate (s : List Char) (caps : List (Nat × Nat × Nat)) : List TItem → List Char
  | [] => []
  | .lit l :: rest => l ++ applyTemplate s caps rest
  | .ref n :: rest =>
    (match caps.find? (fun x => x.1 == n) with
     | some (_, a, b) => (s.drop a).take (b - a)
     | none => []) ++ applyTemplate s caps rest

/-- A replacement: a template, or a function of the whole matched text
(Python's callable replacement). -/
inductive Repl
  | tmpl (t : List TItem)
  | fn (f : List Char → List Char)

/-- Apply a replacement to a match found at the start of suffix `s`. -/
def applyRepl (s : List Char) (cfg : Cfg) : Repl → List Char
  | .tmpl t => applyTemplate s cfg.caps t
  | .fn f => f (s.take cfg.pos)

/-- Fueled scan of `re.sub`: leftmost non-overlapping matches, each replaced,
scanning resuming after the matched text.  `count = 0` means unlimited,
`count = 1` replaces only the first match (the only values the scripts use).
Fuel is the remaining text length; a zero-length match is skipped (none of
the scripts' patterns can match the empty string). -/
def subFuel (pat : List Instr) (r : Repl) : Nat → Nat → List Char → List Char
  | 0, _, s => s
  | _ + 1, _, [] => []
  | fuel + 1, count, c :: rest =>
    match matchHere pat (c :: rest) with
    | none => c :: subFuel pat r fuel count rest
    | some cfg =>
      if cfg.pos = 0 then c :: subFuel pat r fuel count rest
      else
        let repl := applyRepl (c :: rest) cfg r
        if count = 1 then repl ++ (c :: rest).drop cfg.pos
        else repl ++ subFuel pat r fuel (count - 1) ((c :: rest).drop cfg.pos)

/-- Python's `re.sub(pat, r, s, count)` on `List Char` texts. -/
def pysub (pat : List Instr) (r : Repl) (count : Nat) (s : List Char) : List Char :=
  subFuel pat r s.length count s

/-- Split a character list on a separator character (path segments). -/
def splitChar (sep : Char) : List Char → List (List Char)
  | [] => [[]]
  | c :: cs =>
    if c = sep then [] :: splitChar sep cs
    else
      match splitChar sep cs with
      | [] => [[c]]
      | h :: t => (c :: h) :: t

/-- Does the path contain a directory segment literally named `examples`? -/
def hasExamplesSegment (p : List Char) : Bool :=
  decide (chars "examples" ∈ splitChar '/' p)

/-- Pattern-building helpers. -/
def lit (s : String) : Instr := .lit s.data

def wsS : Instr := .cls .ws .star

def wsP : Instr := .cls .ws .plus

def cOpt (c : Char) : Instr := .cls (.only c) .opt

def tl (s : String) : TItem := .lit s.data

def tr (n : Nat) : TItem := .ref n

/-- The abstract result of reading a file: its text, or a raised exception
(carrying an opaque error code). -/
inductive ReadResult
  | ok (t : List Char)
  | err (e : Nat)
deriving DecidableEq

/-- A filesystem event performed by a driver: reading or writing a path. -/
inductive Ev
  | readEv (p : List Char)
  | writeEv (p : List Char) (c : List Char)
deriving DecidableEq

/-- The path an event touches. -/
def Ev.path : Ev → List Char
  | .readEv p => p
  | .writeEv p _ => p

/-- `'examples'`, the exclusion substring all three drivers test for. -/
def exampl : List Char := chars "examples"

namespace RefactorParsers

/-! ### `refactor_parsers.py` — the rule catalog of `refactor_content` -/

/-- Rule 1 pattern: `matches!\(parser\.peek\(\),\s*Token::Feature\(([A-Z_]+)\)\)`. -/
def p1 : List Instr :=
  [lit "matches!(parser.peek(),", wsS, lit "Token::Feature(",
   .gopen 1, .cls .upperUnd .plus, .gclose 1, lit "))"]

/-- Rule 1 replacement: `parser.peek().lexeme == \1`. -/
def r1 : Repl := .tmpl [tl "parser.peek().lexeme == ", tr 1]

/-- Rule 2 pattern: `matches!\(parser\.peek\(\),\s*Token::Feature\(k\)\s+if\s+\*k\s+==\s+([A-Z_]+)\)`. -/
def p2 : List Instr :=
  [lit "matches!(parser.peek(),", wsS, lit "Token::Feature(k)", wsP, lit "if", wsP,
   lit "*k", wsP, lit "==", wsP, .gopen 1, .cls .upperUnd .plus, .gclose 1, lit ")"]

/-- Rule 2 replacement: `parser.peek().lexeme == \1`. -/
def r2 : Repl := .tmpl [tl "parser.peek().lexeme == ", tr 1]

/-- Rule 3 pattern: `matches!\(parser\.peek\(\),\s*Token::Ident\(_\)\)`. -/
def p3 : List Instr := [lit "matches!(parser.peek(),", wsS, lit "Token::Ident(_))"]

/-- Rule 3 replacement: the identifier first-character check. -/
def r3 : Repl :=
  .tmpl [tl "parser.peek().lexeme.chars().next().map_or(false, |c| c.is_alphabetic() || c == \x27_\x27)"]

/-- Rule 4 pattern:
`matches!\(\s*parser\.peek\(\),\s*Token::Ident\([^)]+\)\s+if\s+\w+\s+==\s+"([^"]+)"\s*\)`. -/
def p4 : List Instr :=
  [lit "matches!(", wsS, lit "parser.peek(),", wsS, lit "Token::Ident(",
   .cls .notParen .plus, lit ")", wsP, lit "if", wsP, .cls .wordc .plus, wsP,
   lit "==", wsP, lit "\"", .gopen 1, .cls .notQuote .plus, .gclose 1, lit "\"", wsS, lit ")"]

/-- Rule 4 replacement: `parser.peek().lexeme == "\1"`. -/
def r4 : Repl := .tmpl [tl "parser.peek().lexeme == \"", tr 1, tl "\""]

/-- Rule 5 pattern: `matches!\(parser\.peek\(\),\s*Token::Number\(_\)\)`. -/
def p5 : List Instr := [lit "matches!(parser.peek(),", wsS, lit "Token::Number(_))"]

/-- Rule 5 replacement: the digit first-character check. -/
def r5 : Repl :=
  .tmpl [tl "parser.peek().lexeme.chars().next().map_or(false, |c| c.is_ascii_digit())"]

/-- Rule 6 pattern (shared by both capitalization rules):
`matches!\(parser\.peek\(\),\s*Token::Feature\(TRUE\)\s*\|\s*Token::Feature\(FALSE\)\)`. -/
def p6 : List Instr :=
  [lit "matches!(parser.peek(),", wsS, lit "Token::Feature(TRUE)", wsS, lit "|", wsS,
   lit "Token::Feature(FALSE))"]

/-- Rule 6 first replacement: the lowercase lexeme disjunction. -/
def r6a : Repl :=
  .tmpl [tl "(parser.peek().lexeme == \"true\" || parser.peek().lexeme == \"false\")"]

/-- Rule 6 second replacement: the uppercase lexeme disjunction. -/
def r6b : Repl :=
  .tmpl [tl "(parser.peek().lexeme == \"TRUE\" || parser.peek().lexeme == \"FALSE\")"]

/-- Rule 7 pattern (Ident):
`match\s+parser\.advance\(\)\s*\{\s*Token::Ident\(s\)\s*=>\s*s,\s*_\s*=>\s*unreachable!\(\),?\s*\}`. -/
def p7a : List Instr :=
  [lit "match", wsP, lit "parser.advance()", wsS, lit "\x7b", wsS, lit "Token::Ident(s)",
   wsS, lit "=>", wsS, lit "s,", wsS, lit "_", wsS, lit "=>", wsS, lit "unreachable!()",
   cOpt ',', wsS, lit "\x7d"]

/-- Rule 7 pattern (Number). -/
def p7b : List Instr :=
  [lit "match", wsP, lit "parser.advance()", wsS, lit "\x7b", wsS, lit "Token::Number(s)",
   wsS, lit "=>", wsS, lit "s,", wsS, lit "_", wsS, lit "=>", wsS, lit "unreachable!()",
   cOpt ',', wsS, lit "\x7d"]

/-- Rule 7 replacement: `parser.advance().lexeme`. -/
def r7 : Repl := .tmpl [tl "parser.advance().lexeme"]

/-- Rule 8 pattern: the boolean-literal `match parser.advance()` block. -/
def p8 : List Instr :=
  [lit "match", wsP, lit "parser.advance()", wsS, lit "\x7b", wsS, lit "Token::Feature(TRUE)",
   wsS, lit "=>", wsS, lit "Ok(Box::new(BoolLiteral", wsS, lit "\x7b", wsS, lit "value:",
   wsS, lit "true", wsS, lit "\x7d)),", wsS, lit "Token::Feature(FALSE)", wsS, lit "=>",
   wsS, lit "Ok(Box::new(BoolLiteral", wsS, lit "\x7b", wsS, lit "value:", wsS, lit "false",
   wsS, lit "\x7d)),", wsS, lit "_", wsS, lit "=>", wsS, lit "unreachable!()",
   cOpt ',', wsS, lit "\x7d"]

/-- Rule 8 replacement: compute the flag once, build the node once. -/
def r8 : Repl :=
  .tmpl [tl "\x7b let value = parser.advance().lexeme == \"true\"; Ok(Box::new(BoolLiteral \x7b value \x7d)) \x7d"]

/-- Rule 9 pattern:
`match\s+parser\.advance\(\)\s*\{\s*Token::Feature\(k\)\s+if\s+k\s+==\s+([A-Z_]+)\s*=>\s*\{\},\s*_\s*=>\s*return\s+Err\(([^)]+)\),?\s*\}`. -/
def p9 : List Instr :=
  [lit "match", wsP, lit "parser.advance()", wsS, lit "\x7b", wsS, lit "Token::Feature(k)",
   wsP, lit "if", wsP, lit "k", wsP, lit "==", wsP, .gopen 1, .cls .upperUnd .plus, .gclose 1,
   wsS, lit "=>", wsS, lit "\x7b\x7d,", wsS, lit "_", wsS, lit "=>", wsS, lit "return", wsP,
   lit "Err(", .gopen 2, .cls .notParen .plus, .gclose 2, lit ")", cOpt ',', wsS, lit "\x7d"]

/-- Rule 9 replacement: `if parser.advance().lexeme != \1 { return Err(\2); }`. -/
def r9 : Repl :=
  .tmpl [tl "if parser.advance().lexeme != ", tr 1, tl " \x7b return Err(", tr 2, tl "); \x7d"]

/-- Rule 10 pattern: the `peek_n` lookahead variant. -/
def p10 : List Instr :=
  [lit "parser.peek_n(", .gopen 1, .cls .digit .plus, .gclose 1, lit ").map_or(false,",
   wsS, lit "|t|", wsS, lit "matches!(t,", wsS, lit "Token::Feature(",
   .gopen 2, .cls .upperUnd .plus, .gclose 2, lit ")))"]

/-- Rule 10 replacement. -/
def r10 : Repl :=
  .tmpl [tl "parser.peek_n(", tr 1, tl ").map_or(false, |t| t.lexeme == ", tr 2, tl ")"]

/-- Rule 11 pattern: `\(Token::Ident\(_\),\s*Some\(Token::Feature\(([A-Z_]+)\)\)\)`. -/
def p11 : List Instr :=
  [lit "(Token::Ident(_),", wsS, lit "Some(Token::Feature(",
   .gopen 1, .cls .upperUnd .plus, .gclose 1, lit ")))"]

/-- Rule 11 replacement: the tuple-pattern guard. -/
def r11 : Repl :=
  .tmpl [tl "(tok, Some(next)) if tok.lexeme.chars().next().map_or(false, |c| c.is_alphabetic() || c == \x27_\x27) && next.lexeme == ", tr 1]

/-- Rule 12 removal pattern: `use crate::kernel::lexer::Token;\n`. -/
def p12 : List Instr := [lit "use crate::kernel::lexer::Token;\n"]

/-- Rule 13 patterns: `\s*reg\.tokens\.add_keyword\([^)]+\);\n` and friends. -/
def p13a : List Instr := [wsS, lit "reg.tokens.add_keyword(", .cls .notParen .plus, lit ");\n"]

/-- Rule 13, `add_single_char`. -/
def p13b : List Instr := [wsS, lit "reg.tokens.add_single_char(", .cls .notParen .plus, lit ");\n"]

/-- Rule 13, `add_two_char`. -/
def p13c : List Instr := [wsS, lit "reg.tokens.add_two_char(", .cls .notParen .plus, lit ");\n"]

/-- The empty replacement used by the removal rules. -/
def rEmpty : Repl := .tmpl []

/-- Rule 14 insertion pattern: `(pub fn register\(reg: &mut Registry\)\s*\{\s*)\n`. -/
def p14 : List Instr :=
  [.gopen 1, lit "pub fn register(reg: &mut Registry)", wsS, lit "\x7b", wsS, .gclose 1,
   lit "\n"]

/-- Rule 14 replacement: `\1` followed by the marker line. -/
def r14 : Repl :=
  .tmpl [tr 1, tl "\n    // No token registration needed - kernel handles all segmentation\n"]

/-- Rule 15 pattern: `// Register tokens\s*\n\s*\n`. -/
def p15a : List Instr := [lit "// Register tokens", wsS, lit "\n", wsS, lit "\n"]

/-- Rule 15 pattern: `// Token definitions\s*\n\s*\n\s*pub const`. -/
def p15b : List Instr :=
  [lit "// Token definitions", wsS, lit "\n", wsS, lit "\n", wsS, lit "pub const"]

/-- Rule 15 replacement for the second pattern: `pub const`. -/
def r15b : Repl := .tmpl [tl "pub const"]

/-- Rule 12 as a step: remove the Token import when `'Token::'` no longer
occurs and the import line is present (tested on the text at this stage). -/
def rule12 (content : List Char) : List Char :=
  if !hasSub (chars "Token::") content
     && hasSub (chars "use crate::kernel::lexer::Token;") content
  then pysub p12 rEmpty 0 content
  else content

/-- Rule 14 as a step: insert the marker as the first line of the
registration function's body when the anchor is present, anything changed
relative to `original`, and the marker is not already there (`count=1`). -/
def addMarker (original content : List Char) : List Char :=
  if hasSub (chars "pub fn register(reg: &mut Registry)") content
     && !(original == content)
  then
    if hasSub (chars "// No token registration needed") content then content
    else pysub p14 r14 1 content
  else content

/-- `refactor_content` of `refactor_parsers.py`: the full ordered catalog. -/
def refactor_content (content : List Char) : List Char :=
  let original := content
  let content := pysub p1 r1 0 content
  let content := pysub p2 r2 0 content
  let content := pysub p3 r3 0 content
  let content := pysub p4 r4 0 content
  let content := pysub p5 r5 0 content
  let content := pysub p6 r6a 0 content
  let content := pysub p6 r6b 0 content
  let content := pysub p7a r7 0 content
  let content := pysub p7b r7 0 content
  let content := pysub p8 r8 0 content
  let content := pysub p9 r9 0 content
  let content := pysub p10 r10 0 content
  let content := pysub p11 r11 0 content
  let content := rule12 content
  let content := pysub p13a rEmpty 0 content
  let content := pysub p13b rEmpty 0 content
  let content := pysub p13c rEmpty 0 content
  let content := addMarker original content
  let content := pysub p15a rEmpty 0 content
  let content := pysub p15b r15b 0 content
  content

/-- `process_file`: reads a file (the read's outcome is the argument), and
writes back exactly when the refactored text differs; any exception is
caught, the file counts as failed (`false`) and nothing is written. -/
def process_file (r : ReadResult) : Bool × Option (List Char) :=
  match r with
  | .err _ => (false, none)
  | .ok content =>
    let refactored := refactor_content content
    if refactored == content then (false, none) else (true, some refactored)

/-- The events `main` performs for one enumerated file: skipped outright when
the path contains `'examples'`, otherwise a read followed by the conditional
write-back. -/
def fileEvents (p : List Char) (r : ReadResult) : List Ev :=
  if hasSub exampl p then []
  else
    Ev.readEv p ::
      (match (process_file r).2 with
       | some c => [Ev.writeEv p c]
       | none => [])

/-- The event trace of `main` over the enumerated files. -/
def run : List (List Char × ReadResult) → List Ev
  | [] => []
  | (p, r) :: rest => fileEvents p r ++ run rest

end RefactorParsers

namespace Phase2

/-! ### `refactor_parsers_phase2.py` — `refactor_content_phase2` -/

/-- Phase-2 rule 1 pattern:
`match\s+parser\.advance\(\)\s*\{\s*Token::Number\(s\)\s*=>\s*Ok\(([^}]+)\}\),\s*_\s*=>\s*unreachable!\(\),?\s*\}`. -/
def z1 : List Instr :=
  [lit "match", wsP, lit "parser.advance()", wsS, lit "\x7b", wsS, lit "Token::Number(s)",
   wsS, lit "=>", wsS, lit "Ok(", .gopen 1, .cls .notBrace .plus, .gclose 1, lit "\x7d),",
   wsS, lit "_", wsS, lit "=>", wsS, lit "unreachable!()", cOpt ',', wsS, lit "\x7d"]

/-- Phase-2 rule 1 replacement: `let s = parser.advance().lexeme; Ok(\1})`. -/
def y1 : Repl := .tmpl [tl "let s = parser.advance().lexeme; Ok(", tr 1, tl "\x7d)"]

/-- Phase-2 rule 2 pattern (identical to phase-1 rule 7 for Ident). -/
def z2 : List Instr :=
  [lit "match", wsP, lit "parser.advance()", wsS, lit "\x7b", wsS, lit "Token::Ident(s)",
   wsS, lit "=>", wsS, lit "s,", wsS, lit "_", wsS, lit "=>", wsS, lit "unreachable!()",
   cOpt ',', wsS, lit "\x7d"]

/-- Phase-2 rule 2 replacement. -/
def y2 : Repl := .tmpl [tl "parser.advance().lexeme"]

/-- Phase-2 rule 3 pattern:
`match\s+parser\.advance\(\)\s*\{\s*Token::Feature\(([A-Z_:]+)\)\s*=>\s*\{\},?\s*_\s*=>\s*return\s+Err\(([^)]+)\),?\s*\}`. -/
def z3 : List Instr :=
  [lit "match", wsP, lit "parser.advance()", wsS, lit "\x7b", wsS, lit "Token::Feature(",
   .gopen 1, .cls .upperUndColon .plus, .gclose 1, lit ")", wsS, lit "=>", wsS,
   lit "\x7b\x7d", cOpt ',', wsS, lit "_", wsS, lit "=>", wsS, lit "return", wsP,
   lit "Err(", .gopen 2, .cls .notParen .plus, .gclose 2, lit ")", cOpt ',', wsS, lit "\x7d"]

/-- Phase-2 rule 3 replacement: `if parser.advance().lexeme != \1 { return Err(\2); }`. -/
def y3 : Repl :=
  .tmpl [tl "if parser.advance().lexeme != ", tr 1, tl " \x7b return Err(", tr 2, tl "); \x7d"]

/-- Phase-2 rule 4 pattern:
`matches!\(parser\.peek\(\),\s*Token::Feature\(k\)\s+if\s+\*k\s+==\s+([A-Z_]+)\s+\|\|\s+\*k\s+==\s+([A-Z_]+)\)`. -/
def z4 : List Instr :=
  [lit "matches!(parser.peek(),", wsS, lit "Token::Feature(k)", wsP, lit "if", wsP,
   lit "*k", wsP, lit "==", wsP, .gopen 1, .cls .upperUnd .plus, .gclose 1, wsP,
   lit "||", wsP, lit "*k", wsP, lit "==", wsP, .gopen 2, .cls .upperUnd .plus, .gclose 2,
   lit ")"]

/-- Phase-2 rule 4 replacement. -/
def y4 : Repl :=
  .tmpl [tl "(parser.peek().lexeme == ", tr 1, tl " || parser.peek().lexeme == ", tr 2, tl ")"]

/-- Phase-2 rule 5 pattern: the `while !matches!(...)` variant of rule 4. -/
def z5 : List Instr :=
  [lit "while", wsP, lit "!matches!(parser.peek(),", wsS, lit "Token::Feature(k)", wsP,
   lit "if", wsP, lit "*k", wsP, lit "==", wsP, .gopen 1, .cls .upperUnd .plus, .gclose 1,
   wsP, lit "||", wsP, lit "*k", wsP, lit "==", wsP, .gopen 2, .cls .upperUnd .plus,
   .gclose 2, lit ")"]

/-- Phase-2 rule 5 replacement. -/
def y5 : Repl :=
  .tmpl [tl "while parser.peek().lexeme != ", tr 1, tl " && parser.peek().lexeme != ", tr 2]

/-- Phase-2 rule 6 pattern: `(\s+)Token::Feature\(([A-Z_:]+)\)\s*=>\s*\{\}`. -/
def z6 : List Instr :=
  [.gopen 1, wsP, .gclose 1, lit "Token::Feature(", .gopen 2, .cls .upperUndColon .plus,
   .gclose 2, lit ")", wsS, lit "=>", wsS, lit "\x7b\x7d"]

/-- Phase-2 rule 6 replacement: `\1_ if parser.peek().lexeme == \2 => {}`. -/
def y6 : Repl := .tmpl [tr 1, tl "_ if parser.peek().lexeme == ", tr 2, tl " => \x7b\x7d"]

/-- Phase-2 rule 7 pattern: `tok:\s*Token::Feature\(([A-Z_]+)\)`. -/
def z7 : List Instr :=
  [lit "tok:", wsS, lit "Token::Feature(", .gopen 1, .cls .upperUnd .plus, .gclose 1, lit ")"]

/-- Phase-2 rule 7 replacement: `tok: Token::new(\1.to_string())`. -/
def y7 : Repl := .tmpl [tl "tok: Token::new(", tr 1, tl ".to_string())"]

/-- `refactor_content_phase2`: the ordered phase-2 catalog. -/
def refactor_content_phase2 (content : List Char) : List Char :=
  let content := pysub z1 y1 0 content
  let content := pysub z2 y2 0 content
  let content := pysub z3 y3 0 content
  let content := pysub z4 y4 0 content
  let content := pysub z5 y5 0 content
  let content := pysub z6 y6 0 content
  let content := pysub z7 y7 0 content
  content

/-- Phase-2 `process_file`: write back iff changed; exceptions caught. -/
def process_file (r : ReadResult) : Bool × Option (List Char) :=
  match r with
  | .err _ => (false, none)
  | .ok content =>
    let refactored := refactor_content_phase2 content
    if refactored == content then (false, none) else (true, some refactored)

/-- The events phase-2 `main` performs for one enumerated file. -/
def fileEvents (p : List Char) (r : ReadResult) : List Ev :=
  if hasSub exampl p then []
  else
    Ev.readEv p ::
      (match (process_file r).2 with
       | some c => [Ev.writeEv p c]
       | none => [])

/-- The event trace of phase-2 `main` over the enumerated files. -/
def run : List (List Char × ReadResult) → List Ev
  | [] => []
  | (p, r) :: rest => fileEvents p r ++ run rest

end Phase2

namespace ToLexeme

/-! ### `refactor_to_lexeme.py` -/

/-- `LANG_LEXEMES`: the per-front-end multi-character lexeme tables. -/
def LANG_LEXEMES : List (String × List String) :=
  [("mini_rust",
    ["==", "!=", "<=", ">=", "&&", "||", ":=",
     "let", "if", "else", "while", "break", "continue", "print", "true", "false"]),
   ("mini_c",
    ["==", "!=", "<=", ">=",
     "and", "or", "not", "if", "else", "while", "break", "continue", "printf", "true", "false"]),
   ("mini_php",
    ["==", "!=", "<=", ">=", "===", "!==",
     "and", "or", "not", "if", "else", "while", "break", "continue", "echo", "true", "false"]),
   ("mini_sh",
    ["==", "!=", "<=", ">=",
     "and", "or", "not", "if", "else", "while", "break", "continue", "echo", "true", "false"]),
   ("mini_apple_basic",
    ["==", "!=", "<=", ">=",
     "AND", "OR", "NOT", "IF", "ELSE", "WHILE", "BREAK", "CONTINUE", "PRINT", "TRUE", "FALSE"]),
   ("mini_apple_pascal",
    ["==", "!=", "<=", ">=", ":=",
     "and", "or", "not", "if", "else", "while", "break", "continue", "writeln", "true", "false"])]

/-- Pattern 1: `matches!\(parser\.peek\(\),\s*Token::Feature\(([A-Z_]+)\)\)`. -/
def q1 : List Instr :=
  [lit "matches!(parser.peek(),", wsS, lit "Token::Feature(",
   .gopen 1, .cls .upperUnd .plus, .gclose 1, lit "))"]

/-- Pattern 1 replacement (the lambda builds `parser.peek().lexeme == <g1>`). -/
def u1 : Repl := .tmpl [tl "parser.peek().lexeme == ", tr 1]

/-- Pattern 2: the `*k ==` guarded variant. -/
def q2 : List Instr :=
  [lit "matches!(parser.peek(),", wsS, lit "Token::Feature(k)", wsP, lit "if", wsP,
   lit "*k", wsP, lit "==", wsP, .gopen 1, .cls .upperUnd .plus, .gclose 1, lit ")"]

/-- Pattern 2 replacement. -/
def u2 : Repl := .tmpl [tl "parser.peek().lexeme == ", tr 1]

/-- Pattern 3: `Token::Ident(_)` peek check. -/
def q3 : List Instr := [lit "matches!(parser.peek(),", wsS, lit "Token::Ident(_))"]

/-- Pattern 3 replacement. -/
def u3 : Repl :=
  .tmpl [tl "parser.peek().lexeme.chars().next().map_or(false, |c| c.is_alphabetic() || c == \x27_\x27)"]

/-- Pattern 4: `matches!\(parser\.peek\(\),\s*Token::Ident\([^)]+\)\s+if\s+\w+\s+==\s+"([^"]+)"\)`
(note: unlike phase-1 rule 4, no `\s*` before the final paren). -/
def q4 : List Instr :=
  [lit "matches!(parser.peek(),", wsS, lit "Token::Ident(", .cls .notParen .plus, lit ")",
   wsP, lit "if", wsP, .cls .wordc .plus, wsP, lit "==", wsP, lit "\"",
   .gopen 1, .cls .notQuote .plus, .gclose 1, lit "\")"]

/-- Pattern 4 replacement. -/
def u4 : Repl := .tmpl [tl "parser.peek().lexeme == \"", tr 1, tl "\""]

/-- Pattern 5: `Token::Number(_)` peek check. -/
def q5 : List Instr := [lit "matches!(parser.peek(),", wsS, lit "Token::Number(_))"]

/-- Pattern 5 replacement. -/
def u5 : Repl :=
  .tmpl [tl "parser.peek().lexeme.chars().next().map_or(false, |c| c.is_ascii_digit())"]

/-- The inner pattern used by `refactor_match_advance`:
`Token::Feature\(k\)\s+if\s+k\s+==\s+([A-Z_]+)`. -/
def qInner : List Instr :=
  [lit "Token::Feature(k)", wsP, lit "if", wsP, lit "k", wsP, lit "==", wsP,
   .gopen 1, .cls .upperUnd .plus, .gclose 1]

/-- The inner replacement: `_ if parser.peek().lexeme == \1`. -/
def uInner : Repl := .tmpl [tl "_ if parser.peek().lexeme == ", tr 1]

/-- `refactor_match_advance`: the replacement function for pattern 6 —
it rewrites guard arms inside the whole matched `match parser.advance()` block. -/
def refactor_match_advance (g0 : List Char) : List Char :=
  pysub qInner uInner 0 g0

/-- Pattern 6: `match\s+parser\.advance\(\)\s*\{([^}]+)\}`, replaced through
the `refactor_match_advance` function. -/
def q6 : List Instr :=
  [lit "match", wsP, lit "parser.advance()", wsS, lit "\x7b",
   .gopen 1, .cls .notBrace .plus, .gclose 1, lit "\x7d"]

/-- Pattern 6 replacement (Python passes the match object to a function). -/
def u6 : Repl := .fn refactor_match_advance

/-- Pattern 7: `match\s+parser\.advance\(\)\s*\{\s*Token::(Ident|Number)\(s\)\s*=>\s*s,`. -/
def q7 : List Instr :=
  [lit "match", wsP, lit "parser.advance()", wsS, lit "\x7b", wsS, lit "Token::",
   .gopen 1, .alts [chars "Ident", chars "Number"], .gclose 1, lit "(s)", wsS, lit "=>",
   wsS, lit "s,"]

/-- Pattern 7 replacement. -/
def u7 : Repl := .tmpl [tl "let lexeme = parser.advance().lexeme;"]

/-- Pattern 8: `match\s+parser\.advance\(\)\s*\{\s*Token::Feature\(k\)\s+if\s+k\s+==\s+([A-Z_]+)\s*=>\s*\{\}`. -/
def q8 : List Instr :=
  [lit "match", wsP, lit "parser.advance()", wsS, lit "\x7b", wsS, lit "Token::Feature(k)",
   wsP, lit "if", wsP, lit "k", wsP, lit "==", wsP, .gopen 1, .cls .upperUnd .plus,
   .gclose 1, wsS, lit "=>", wsS, lit "\x7b\x7d"]

/-- Pattern 8 replacement: `if parser.advance().lexeme != <g1> {`. -/
def u8 : Repl := .tmpl [tl "if parser.advance().lexeme != ", tr 1, tl " \x7b"]

/-- Pattern 9: the `peek_n` lookahead variant. -/
def q9 : List Instr :=
  [lit "parser.peek_n(", .gopen 1, .cls .digit .plus, .gclose 1, lit ").map_or(false,",
   wsS, lit "|t|", wsS, lit "matches!(t,", wsS, lit "Token::Feature(",
   .gopen 2, .cls .upperUnd .plus, .gclose 2, lit ")))"]

/-- Pattern 9 replacement. -/
def u9 : Repl :=
  .tmpl [tl "parser.peek_n(", tr 1, tl ").map_or(false, |t| t.lexeme == ", tr 2, tl ")"]

/-- `refactor_token_matches`: the nine ordered substitutions. -/
def refactor_token_matches (content : List Char) : List Char :=
  let content := pysub q1 u1 0 content
  let content := pysub q2 u2 0 content
  let content := pysub q3 u3 0 content
  let content := pysub q4 u4 0 content
  let content := pysub q5 u5 0 content
  let content := pysub q6 u6 0 content
  let content := pysub q7 u7 0 content
  let content := pysub q8 u8 0 content
  let content := pysub q9 u9 0 content
  content

/-- Registration-removal pattern: `\s*reg\.tokens\.add_keyword\([^)]+\);?\n`
(note the optional semicolon, unlike phase 1). -/
def qRegA : List Instr :=
  [wsS, lit "reg.tokens.add_keyword(", .cls .notParen .plus, lit ")", cOpt ';', lit "\n"]

/-- Registration-removal pattern for `add_single_char`. -/
def qRegB : List Instr :=
  [wsS, lit "reg.tokens.add_single_char(", .cls .notParen .plus, lit ")", cOpt ';', lit "\n"]

/-- Registration-removal pattern for `add_two_char`. -/
def qRegC : List Instr :=
  [wsS, lit "reg.tokens.add_two_char(", .cls .notParen .plus, lit ")", cOpt ';', lit "\n"]

/-- The empty replacement. -/
def uEmpty : Repl := .tmpl []

/-- `remove_token_registration`: strip the three kinds of registration calls. -/
def remove_token_registration (content : List Char) : List Char :=
  let content := pysub qRegA uEmpty 0 content
  let content := pysub qRegB uEmpty 0 content
  let content := pysub qRegC uEmpty 0 content
  content

/-- A lexeme quoted for the emitted registration block. -/
def quoteLex (s : String) : List Char := chars "\"" ++ s.data ++ chars "\""

/-- The fixed registration block inserted by the Dispatcher Augmenter,
holding the module's ordered lexeme list. -/
def registrationBlock (ls : List String) : List Char :=
  chars "    // Register multi-character lexemes for maximal-munch segmentation\n    // The kernel lexer will use these for pure lossless ASCII segmentation\n    registry.tokens.set_multichar_lexemes(vec![\n        "
    ++ List.intercalate (chars ",\n        ") (ls.map quoteLex)
    ++ chars ",\n    ]);\n\n"

/-- The anchor pattern of `update_dispatcher`:
`(pub fn register_all\([^)]+\) \{\s*\n)`. -/
def registerAllPat : List Instr :=
  [.gopen 1, lit "pub fn register_all(", .cls .notParen .plus, lit ") \x7b", wsS,
   lit "\n", .gclose 1]

/-- `update_dispatcher`: if the dispatch file is absent, do nothing; otherwise
insert the registration block after the `register_all` anchor and write the
file back unconditionally (the returned value is the written content). -/
def update_dispatcher (disp : Option (List Char)) (lexemes : List String) : Option (List Char) :=
  match disp with
  | none => none
  | some content =>
    some (pysub registerAllPat (.tmpl [tr 1, .lit (registrationBlock lexemes)]) 0 content)

/-- The marker-insertion pattern of `process_file`:
`(pub fn register\(reg: &mut Registry\) \{\s*\n)`. -/
def qMark : List Instr :=
  [.gopen 1, lit "pub fn register(reg: &mut Registry) \x7b", wsS, lit "\n", .gclose 1]

/-- The marker-insertion replacement (the group already ends in a newline). -/
def uMark : Repl :=
  .tmpl [tr 1, tl "    // No token registration needed - kernel handles all segmentation\n"]

/-- The full text transformation `process_file` applies to one file's content. -/
def transform (content : List Char) : List Char :=
  let original := content
  let c := refactor_token_matches content
  let c := remove_token_registration c
  if hasSub (chars "pub fn register(reg: &mut Registry)") c
     && hasSub (chars "reg.tokens.") original
  then pysub qMark uMark 0 c
  else c

/-- `process_file` of `refactor_to_lexeme.py`: skips `'examples'` paths before
reading; has no exception handler, so a raised read error propagates
(`Except.error`); writes back exactly when the transformed text differs. -/
def process_file (p : List Char) (r : ReadResult) : Except Nat (Option (List Char)) :=
  if hasSub exampl p then .ok none
  else
    match r with
    | .err e => .error e
    | .ok content =>
      let c := transform content
      if c == content then .ok none else .ok (some c)

/-- The events the per-file loop performs, stopping at the first uncaught
exception (the `Bool` reports whether the loop aborted). -/
def fileEventsAcc : List (List Char × ReadResult) → List Ev × Bool
  | [] => ([], false)
  | (p, r) :: rest =>
    if hasSub exampl p then fileEventsAcc rest
    else
      match r with
      | .err _ => ([Ev.readEv p], true)
      | .ok content =>
        (Ev.readEv p ::
           (match process_file p (.ok content) with
            | .ok (some c) => [Ev.writeEv p c]
            | _ => []) ++ (fileEventsAcc rest).1,
         (fileEventsAcc rest).2)

/-- The dispatch-file path of a module, as `update_dispatcher` forms it. -/
def dispPath (lang : String) : List Char :=
  chars ("/home/user/lumen-lang/src_" ++ lang ++ "/src_" ++ lang ++ ".rs")

/-- What the filesystem holds for one module when the driver runs. -/
structure ModuleInput where
  dirExists : Bool
  dispFile : Option (List Char)
  files : List (List Char × ReadResult)

/-- The events `main` performs for one module: the dispatcher read/write,
then the per-file loop. -/
def moduleEvents (lang : String) (lexemes : List String) (m : ModuleInput) : List Ev × Bool :=
  if m.dirExists then
    let de : List Ev :=
      match m.dispFile with
      | none => []
      | some _ =>
        Ev.readEv (dispPath lang) ::
          (match update_dispatcher m.dispFile lexemes with
           | some c => [Ev.writeEv (dispPath lang) c]
           | none => [])
    (de ++ (fileEventsAcc m.files).1, (fileEventsAcc m.files).2)
  else ([], false)

/-- Fold the modules in table order, stopping at the first uncaught exception. -/
def runModules : List (String × List String) → (String → ModuleInput) → List Ev
  | [], _ => []
  | (lang, lex) :: rest, inp =>
    let me := moduleEvents lang lex (inp lang)
    if me.2 then me.1 else me.1 ++ runModules rest inp

/-- The full event trace of `refactor_to_lexeme.py`'s `main`. -/
def runLex (inp : String → ModuleInput) : List Ev :=
  runModules LANG_LEXEMES inp

end ToLexeme

/-! ### Concrete texts used by the claim theorems -/

/-- A file whose only `Token::` occurrences sit inside a registration call:
rule 12 keeps the import, rule 13 then removes the occurrence. -/
def c7x : List Char :=
  chars "use crate::kernel::lexer::Token;\nfn f() \x7b\n    reg.tokens.add_keyword(Token::FOO);\n\x7d\n"

/-- What the catalog produces for `c7x`: the import stays although no
`Token::` reference remains. -/
def c7xOut : List Char :=
  chars "use crate::kernel::lexer::Token;\nfn f() \x7b\x7d\n"

/-- A file importing the token type with no `Token::` occurrence at all. -/
def c7b : List Char :=
  chars "use crate::kernel::lexer::Token;\nfn g() \x7b let x = 1; \x7d\n"

/-- Expected output for `c7b`: the import line is removed. -/
def c7bOut : List Char := chars "fn g() \x7b let x = 1; \x7d\n"

/-- Spec scenario 3: a registration entry point whose body is exactly three
individual token-registration calls. -/
def c4calls : List Char :=
  chars "pub fn register(reg: &mut Registry) \x7b\n    reg.tokens.add_keyword(\"let\");\n    reg.tokens.add_single_char(\";\");\n    reg.tokens.add_two_char(\"==\");\n\x7d\n"

/-- What the catalog actually produces for `c4calls`: the calls are removed
together with the newline after the opening brace, and no marker comment is
inserted. -/
def c4callsOut : List Char := chars "pub fn register(reg: &mut Registry) \x7b\x7d\n"

/-- A file containing the registration entry point and no registration call
at all, but with a predicate rewritten by rule 1. -/
def c4nocall : List Char :=
  chars "fn peek_is() -> bool \x7b matches!(parser.peek(), Token::Feature(FOO)) \x7d\npub fn register(reg: &mut Registry) \x7b\n    reg.parsers.add(x);\n\x7d\n"

/-- What the catalog produces for `c4nocall`: the marker is inserted although
no token-registration call was removed. -/
def c4nocallOut : List Char :=
  chars "fn peek_is() -> bool \x7b parser.peek().lexeme == FOO \x7d\npub fn register(reg: &mut Registry) \x7b\n    // No token registration needed - kernel handles all segmentation\n    reg.parsers.add(x);\n\x7d\n"

/-- The marker comment text. -/
def markerText : List Char :=
  chars "// No token registration needed - kernel handles all segmentation"

/-- A dispatcher file without the `register_all` anchor. -/
def c2x : List Char := chars "fn main() \x7b\x7d\n"

/-- The `mini_rust` lexeme table entry. -/
def rustLexemes : List String :=
  ["==", "!=", "<=", ">=", "&&", "||", ":=",
   "let", "if", "else", "while", "break", "continue", "print", "true", "false"]

/-- A one-file batch used to instantiate the driver theorems. -/
def fs0 : List (List Char × ReadResult) :=
  [(chars "/home/user/lumen-lang/src_mini_c/expr.rs", ReadResult.ok (chars "x"))]

/-- A module-input assignment with no module present. -/
def inp0 : String → ToLexeme.ModuleInput := fun _ => ⟨false, none, []⟩

/-- A second one-file batch used to instantiate the driver theorems. -/
def fs1 : List (List Char × ReadResult) :=
  [(chars "/home/user/lumen-lang/src_mini_php/lexer.rs", ReadResult.ok (chars "y"))]

/-! ### Helper lemmas -/

/-- An empty configuration list stays empty. -/
theorem runAll_nil (pat : List Instr) : runAll pat [] = [] := by
  cases pat <;> rfl

/-- If the pattern matches at no suffix of `s`, the fueled scan copies `s`. -/
theorem subFuel_id (pat : List Instr) (r : Repl) (count : Nat) :
    ∀ (fuel : Nat) (s : List Char),
      (∀ i : Nat, matchHere pat (s.drop i) = none) →
      subFuel pat r fuel count s = s := by
  intro fuel
  induction fuel with
  | zero => intro s _; rfl
  | succ n ih =>
    intro s h
    cases s with
    | nil => rfl
    | cons c rest =>
      have h0 : matchHere pat (c :: rest) = none := by simpa using h 0
      simp only [subFuel, h0]
      exact congrArg (c :: ·) (ih rest (fun i => by simpa using h (i + 1)))

/-- If the pattern matches at no suffix of `s`, `re.sub` is the identity. -/
theorem pysub_id (pat : List Instr) (r : Repl) (count : Nat) (s : List Char)
    (h : ∀ i : Nat, matchHere pat (s.drop i) = none) :
    pysub pat r count s = s :=
  subFuel_id pat r count s.length s h

/-- A longer literal being a prefix forces the shorter one to be. -/
theorem isPrefixL_mono (a b t : List Char) :
    isPrefixL (a ++ b) t = true → isPrefixL a t = true := by
  induction a generalizing t with
  | nil => intro _; rfl
  | cons x xs ih =>
    intro h
    cases t with
    | nil => simp [isPrefixL] at h
    | cons y ys =>
      simp only [List.cons_append, isPrefixL, Bool.and_eq_true] at h ⊢
      exact ⟨h.1, ih ys h.2⟩

/-- If `n` occurs nowhere in `s`, it is a prefix of no suffix of `s`. -/
theorem not_hasSub_drop (n : List Char) :
    ∀ (s : List Char), hasSub n s = false → ∀ i : Nat, isPrefixL n (s.drop i) = false := by
  intro s
  induction s with
  | nil =>
    intro h i
    simp only [List.drop_nil]
    cases n with
    | nil => simp [hasSub] at h
    | cons x xs => rfl
  | cons c rest ih =>
    intro h i
    have h' : isPrefixL n (c :: rest) = false ∧ hasSub n rest = false := by
      have := h
      simp only [hasSub, Bool.or_eq_false_iff] at this
      exact this
    cases i with
    | zero => simpa using h'.1
    | succ j => simpa [List.drop_succ_cons] using ih h'.2 j

/-- A prefix occurrence is an occurrence. -/
theorem hasSub_of_isPrefixL (n s : List Char) (h : isPrefixL n s = true) :
    hasSub n s = true := by
  cases s with
  | nil =>
    cases n with
    | nil => rfl
    | cons x xs => simp [isPrefixL] at h
  | cons c rest => simp [hasSub, h]

/-- Occurrences survive prepending a character. -/
theorem hasSub_cons (n : List Char) (c : Char) (s : List Char)
    (h : hasSub n s = true) : hasSub n (c :: s) = true := by
  simp [hasSub, h]

/-- `splitChar` always yields a head chunk that is a prefix of the input. -/
theorem splitChar_head_pre (sep : Char) :
    ∀ (l : List Char), ∃ h t, splitChar sep l = h :: t ∧ isPrefixL h l = true := by
  intro l
  induction l with
  | nil => exact ⟨[], [], rfl, rfl⟩
  | cons c cs ih =>
    by_cases hc : c = sep
    · exact ⟨[], splitChar sep cs, by simp [splitChar, hc], rfl⟩
    · obtain ⟨h, t, heq, hpre⟩ := ih
      refine ⟨c :: h, t, ?_, ?_⟩
      · simp [splitChar, hc, heq]
      · simp [isPrefixL, hpre]

/-- Every path segment occurs as a substring of the path. -/
theorem mem_splitChar_hasSub (sep : Char) :
    ∀ (l x : List Char), x ∈ splitChar sep l → hasSub x l = true := by
  intro l
  induction l with
  | nil =>
    intro x hx
    simp [splitChar] at hx
    subst hx
    rfl
  | cons c cs ih =>
    intro x hx
    by_cases hc : c = sep
    · simp only [splitChar, if_pos hc] at hx
      rcases List.mem_cons.mp hx with h | h
      · subst h; simp [hasSub, isPrefixL]
      · exact hasSub_cons _ _ _ (ih x h)
    · obtain ⟨h, t, heq, hpre⟩ := splitChar_head_pre sep cs
      simp only [splitChar, if_neg hc, heq] at hx
      rcases List.mem_cons.mp hx with hx1 | hx2
      · subst hx1
        exact hasSub_of_isPrefixL _ _ (by simp [isPrefixL, hpre])
      · exact hasSub_cons _ _ _ (ih x (heq ▸ List.mem_cons_of_mem h hx2))

/-- A path with an `examples` segment contains the substring `examples`. -/
theorem seg_hasSub (p : List Char) (h : hasExamplesSegment p = true) :
    hasSub exampl p = true := by
  have hm : chars "examples" ∈ splitChar '/' p := of_decide_eq_true h
  simpa [exampl] using mem_splitChar_hasSub '/' p _ hm

/-- The dispatcher anchor pattern cannot match a suffix that does not start
with the anchor literal. -/
theorem matchHere_regAll_none (t : List Char)
    (h : isPrefixL (chars "pub fn register_all(") t = false) :
    matchHere ToLexeme.registerAllPat t = none := by
  simp [matchHere, ToLexeme.registerAllPat, runAll, catMap, step, lit, chars, runAll_nil,
    show isPrefixL "pub fn register_all(".data t = false from h]

/-- Events of one `refactor_parsers` file all carry its (non-excluded) path. -/
theorem rp_fileEvents_clean (p : List Char) (r : ReadResult) (ev : Ev)
    (hev : ev ∈ RefactorParsers.fileEvents p r) : hasSub exampl ev.path = false := by
  unfold RefactorParsers.fileEvents at hev
  by_cases hx : hasSub exampl p = true
  · simp [hx] at hev
  · have hx' : hasSub exampl p = false := by simpa using hx
    cases hw : (RefactorParsers.process_file r).2 with
    | none =>
      rw [hw] at hev
      simp [hx'] at hev
      subst hev
      simpa [Ev.path] using hx'
    | some c =>
      rw [hw] at hev
      simp [hx'] at hev
      rcases hev with h1 | h1 <;> subst h1 <;> simpa [Ev.path] using hx'

/-- All events of a `refactor_parsers` run avoid `examples` paths. -/
theorem rp_run_clean :
    ∀ (fs : List (List Char × ReadResult)) (ev : Ev),
      ev ∈ RefactorParsers.run fs → hasSub exampl ev.path = false := by
  intro fs
  induction fs with
  | nil => intro ev hev; simp [RefactorParsers.run] at hev
  | cons pr rest ih =>
    intro ev hev
    obtain ⟨p, r⟩ := pr
    unfold RefactorParsers.run at hev
    rcases List.mem_append.mp hev with h | h
    · exact rp_fileEvents_clean p r ev h
    · exact ih ev h

/-- Events of one phase-2 file all carry its (non-excluded) path. -/
theorem p2_fileEvents_clean (p : List Char) (r : ReadResult) (ev : Ev)
    (hev : ev ∈ Phase2.fileEvents p r) : hasSub exampl ev.path = false := by
  unfold Phase2.fileEvents at hev
  by_cases hx : hasSub exampl p = true
  · simp [hx] at hev
  · have hx' : hasSub exampl p = false := by simpa using hx
    cases hw : (Phase2.process_file r).2 with
    | none =>
      rw [hw] at hev
      simp [hx'] at hev
      subst hev
      simpa [Ev.path] using hx'
    | some c =>
      rw [hw] at hev
      simp [hx'] at hev
      rcases hev with h1 | h1 <;> subst h1 <;> simpa [Ev.path] using hx'

/-- All events of a phase-2 run avoid `examples` paths. -/
theorem p2_run_clean :
    ∀ (fs : List (List Char × ReadResult)) (ev : Ev),
      ev ∈ Phase2.run fs → hasSub exampl ev.path = false := by
  intro fs
  induction fs with
  | nil => intro ev hev; simp [Phase2.run] at hev
  | cons pr rest ih =>
    intro ev hev
    obtain ⟨p, r⟩ := pr
    unfold Phase2.run at hev
    rcases List.mem_append.mp hev with h | h
    · exact p2_fileEvents_clean p r ev h
    · exact ih ev h

/-- All events of the `refactor_to_lexeme` per-file loop avoid `examples`. -/
theorem tl_fileAcc_clean :
    ∀ (fs : List (List Char × ReadResult)) (ev : Ev),
      ev ∈ (ToLexeme.fileEventsAcc fs).1 → hasSub exampl ev.path = false := by
  intro fs
  induction fs with
  | nil => intro ev hev; simp [ToLexeme.fileEventsAcc] at hev
  | cons pr rest ih =>
    intro ev hev
    obtain ⟨p, r⟩ := pr
    unfold ToLexeme.fileEventsAcc at hev
    by_cases hx : hasSub exampl p = true
    · simp only [hx, if_true] at hev
      exact ih ev hev
    · have hx' : hasSub exampl p = false := by simpa using hx
      cases r with
      | err e =>
        simp [hx'] at hev
        subst hev
        simpa [Ev.path] using hx'
      | ok content =>
        simp only [hx', Bool.false_eq_true, if_false] at hev
        cases hw : ToLexeme.process_file p (.ok content) with
        | error e =>
          rw [hw] at hev
          simp at hev
          rcases hev with h1 | h1
          · subst h1; simpa [Ev.path] using hx'
          · exact ih ev h1
        | ok w =>
          cases w with
          | none =>
            rw [hw] at hev
            simp at hev
            rcases hev with h1 | h1
            · subst h1; simpa [Ev.path] using hx'
            · exact ih ev h1
          | some c =>
            rw [hw] at hev
            simp at hev
            rcases hev with h1 | h1 | h1
            · subst h1; simpa [Ev.path] using hx'
            · subst h1; simpa [Ev.path] using hx'
            · exact ih ev h1

/-- All events of one module avoid `examples`, given its dispatcher path does. -/
theorem tl_module_clean (lang : String) (lex : List String) (m : ToLexeme.ModuleInput)
    (ev : Ev) (hd : hasSub exampl (ToLexeme.dispPath lang) = false)
    (hev : ev ∈ (ToLexeme.moduleEvents lang lex m).1) : hasSub exampl ev.path = false := by
  unfold ToLexeme.moduleEvents at hev
  by_cases hx : m.dirExists = true
  · simp only [hx, if_true] at hev
    rcases List.mem_append.mp hev with h | h
    · cases hdf : m.dispFile with
      | none => rw [hdf] at h; simp at h
      | some c =>
        rw [hdf] at h
        simp [ToLexeme.update_dispatcher] at h
        rcases h with h1 | h1 <;> subst h1 <;> simpa [Ev.path] using hd
    · exact tl_fileAcc_clean m.files ev h
  · have hx' : m.dirExists = false := by simpa using hx
    simp [hx'] at hev

/-- All events of a module fold avoid `examples`, given every listed module's
dispatcher path does. -/
theorem tl_modules_clean :
    ∀ (L : List (String × List String)) (inp : String → ToLexeme.ModuleInput) (ev : Ev),
      (∀ x ∈ L, hasSub exampl (ToLexeme.dispPath x.1) = false) →
      ev ∈ ToLexeme.runModules L inp → hasSub exampl ev.path = false := by
  intro L
  induction L with
  | nil => intro inp ev _ hev; simp [ToLexeme.runModules] at hev
  | cons x rest ih =>
    intro inp ev hL hev
    obtain ⟨lang, lex⟩ := x
    unfold ToLexeme.runModules at hev
    by_cases hab : (ToLexeme.moduleEvents lang lex (inp lang)).2 = true
    · simp [hab] at hev
      exact tl_module_clean lang lex (inp lang) ev (hL (lang, lex) (List.mem_cons_self _ _)) hev
    · have hab' : (ToLexeme.moduleEvents lang lex (inp lang)).2 = false := by simpa using hab
      simp [hab'] at hev
      rcases hev with h | h
      · exact tl_module_clean lang lex (inp lang) ev (hL (lang, lex) (List.mem_cons_self _ _)) h
      · exact ih inp ev (fun y hy => hL y (List.mem_cons_of_mem _ hy)) h

set_option maxHeartbeats 1000000 in
/-- No event of any of the three drivers touches a path containing the
substring `examples`. -/
theorem events_clean (fs : List (List Char × ReadResult))
    (inp : String → ToLexeme.ModuleInput) (ev : Ev)
    (h : ev ∈ RefactorParsers.run fs ∨ ev ∈ Phase2.run fs ∨ ev ∈ ToLexeme.runLex inp) :
    hasSub exampl ev.path = false := by
  rcases h with h | h | h
  · exact rp_run_clean fs ev h
  · exact p2_run_clean fs ev h
  · exact tl_modules_clean ToLexeme.LANG_LEXEMES inp ev (by decide) h

/-! ### Claim theorems -/

set_option maxHeartbeats 1000000 in
/-- C2 counterexample: the Dispatcher Augmenter writes a file whose
transformed text equals the original.  `c2x` has no `register_all` anchor,
so the substitution changes nothing, yet `update_dispatcher` still performs
a write (returns `some c2x`), contradicting "no file is ever written by any
component (including the Dispatcher Augmenter's update_dispatcher) when the
transformed text equals the original". -/
theorem C2_counterexample :
    ToLexeme.update_dispatcher (some c2x) rustLexemes = some c2x := rfl

/-- C2 (amended): each of the three `process_file` functions writes back and
reports a change exactly when the transformed text differs byte-for-byte
from the original; `update_dispatcher`, however, writes the dispatcher file
whenever it exists, even when the transformed text equals the original. -/
theorem C2_theorem :
    (∀ c : List Char,
        ((RefactorParsers.process_file (.ok c)).2 ≠ none ↔
          RefactorParsers.refactor_content c ≠ c)
      ∧ ((RefactorParsers.process_file (.ok c)).1 = true ↔
          RefactorParsers.refactor_content c ≠ c))
    ∧ (∀ c : List Char,
        ((Phase2.process_file (.ok c)).2 ≠ none ↔ Phase2.refactor_content_phase2 c ≠ c))
    ∧ (∀ p c : List Char, hasSub exampl p = false →
        (ToLexeme.process_file p (.ok c) = .ok none ↔ ToLexeme.transform c = c))
    ∧ (∀ (c : List Char) (lex : List String),
        ToLexeme.update_dispatcher (some c) lex ≠ none) := by
  refine ⟨?_, ?_, ?_, ?_⟩
  · intro c
    by_cases h : RefactorParsers.refactor_content c = c
    · simp [RefactorParsers.process_file, h]
    · simp [RefactorParsers.process_file, h]
  · intro c
    by_cases h : Phase2.refactor_content_phase2 c = c
    · simp [Phase2.process_file, h]
    · simp [Phase2.process_file, h]
  · intro p c hp
    by_cases h : ToLexeme.transform c = c
    · simp [ToLexeme.process_file, hp, h]
    · simp [ToLexeme.process_file, hp, h]
  · intro c lex
    simp [ToLexeme.update_dispatcher]

/-- Closed witness for C2's amended theorem at a concrete path and content. -/
theorem C2_witness :
    ToLexeme.process_file (chars "/w/a.rs") (.ok (chars "abc")) = .ok none
      ↔ ToLexeme.transform (chars "abc") = chars "abc" :=
  C2_theorem.2.2.1 (chars "/w/a.rs") (chars "abc") (by decide)

/-- C3 counterexample: in `refactor_to_lexeme.py`, `process_file` has no
exception handler, so a read error on a non-excluded path propagates out of
the per-file processing instead of being caught — contradicting "in every
one of the three scripts, any exception ... is caught inside that file's
processing". -/
theorem C3_counterexample :
    ToLexeme.process_file (chars "/home/user/lumen-lang/src_mini_rust/parser/expr.rs")
      (.err 13) = .error 13 := by rfl

/-- C3 (amended): `refactor_parsers.py` and `refactor_parsers_phase2.py`
catch any per-file exception, count the file as failed (`false`) and write
nothing; `refactor_to_lexeme.py`'s `process_file` has no handler, so a raised
read error propagates (aborting the batch). -/
theorem C3_theorem :
    (∀ e : Nat, RefactorParsers.process_file (.err e) = (false, none))
    ∧ (∀ e : Nat, Phase2.process_file (.err e) = (false, none))
    ∧ (∀ (p : List Char) (e : Nat), hasSub exampl p = false →
        ToLexeme.process_file p (.err e) = .error e) := by
  refine ⟨fun e => rfl, fun e => rfl, ?_⟩
  intro p e hp
  simp [ToLexeme.process_file, hp]

/-- Closed witness for C3's amended theorem at a concrete path and error. -/
theorem C3_witness :
    ToLexeme.process_file (chars "/w/b.rs") (.err 7) = .error 7 :=
  C3_theorem.2.2 (chars "/w/b.rs") 7 (by decide)

/-- C5 (confirmed): a file whose path contains an `examples` directory
segment (at any depth) is never read or written by any of the three
drivers — no event of any run touches such a path. -/
theorem C5_theorem :
    ∀ (fs : List (List Char × ReadResult)) (inp : String → ToLexeme.ModuleInput) (ev : Ev),
      (ev ∈ RefactorParsers.run fs ∨ ev ∈ Phase2.run fs ∨ ev ∈ ToLexeme.runLex inp) →
      hasExamplesSegment ev.path = false := by
  intro fs inp ev h
  have h1 : hasSub exampl ev.path = false := events_clean fs inp ev h
  cases h2 : hasExamplesSegment ev.path with
  | false => rfl
  | true =>
    have h3 := seg_hasSub _ h2
    rw [h3] at h1
    exact absurd h1 (by decide)

/-- Closed witness for C5 at a concrete one-file run. -/
theorem C5_witness :
    hasExamplesSegment
      (Ev.path (Ev.readEv (chars "/home/user/lumen-lang/src_mini_c/expr.rs"))) = false :=
  C5_theorem fs0 inp0 _ (Or.inl (by decide))

/-- C9 (confirmed): when the dispatch file is absent `update_dispatcher`
does nothing, and when its content lacks the `pub fn register_all` anchor
the written content equals what was read — the module's files keep their
content and no error is raised. -/
theorem C9_theorem :
    (∀ lex : List String, ToLexeme.update_dispatcher none lex = none)
    ∧ (∀ (c : List Char) (lex : List String),
        hasSub (chars "pub fn register_all") c = false →
        ToLexeme.update_dispatcher (some c) lex = some c) := by
  refine ⟨fun lex => rfl, ?_⟩
  intro c lex h
  unfold ToLexeme.update_dispatcher
  refine congrArg some (pysub_id _ _ _ _ ?_)
  intro i
  apply matchHere_regAll_none
  have h1 : isPrefixL (chars "pub fn register_all") (c.drop i) = false :=
    not_hasSub_drop _ c h i
  cases h2 : isPrefixL (chars "pub fn register_all(") (c.drop i) with
  | false => rfl
  | true =>
    have h3 : isPrefixL (chars "pub fn register_all") (c.drop i) = true := by
      apply isPrefixL_mono (chars "pub fn register_all") (chars "(")
      have he : chars "pub fn register_all" ++ chars "(" = chars "pub fn register_all(" := by
        decide
      rw [he]
      exact h2
    rw [h3] at h1
    exact absurd h1 (by decide)

/-- Closed witness for C9 at a concrete anchor-free dispatcher content. -/
theorem C9_witness :
    ToLexeme.update_dispatcher (some (chars "// dispatcher\n")) []
      = some (chars "// dispatcher\n") :=
  C9_theorem.2 (chars "// dispatcher\n") [] (by decide)

/-- C10 (confirmed, implicit): the exclusion is a substring test over the
whole path string — any path containing the characters `examples` anywhere
(also e.g. `counterexamples` or `examples_utils.rs`) is skipped by all three
drivers before any content is read, transformed or written. -/
theorem C10_theorem :
    (∀ (fs : List (List Char × ReadResult)) (inp : String → ToLexeme.ModuleInput) (ev : Ev),
        (ev ∈ RefactorParsers.run fs ∨ ev ∈ Phase2.run fs ∨ ev ∈ ToLexeme.runLex inp) →
        hasSub exampl ev.path = false)
    ∧ (∀ (p : List Char) (r : ReadResult), hasSub exampl p = true →
        RefactorParsers.fileEvents p r = [] ∧ Phase2.fileEvents p r = []
          ∧ ToLexeme.process_file p r = .ok none) := by
  refine ⟨events_clean, ?_⟩
  intro p r h
  refine ⟨?_, ?_, ?_⟩
  · simp [RefactorParsers.fileEvents, h]
  · simp [Phase2.fileEvents, h]
  · simp [ToLexeme.process_file, h]

/-- Closed witness for C10 at a concrete one-file run. -/
theorem C10_witness :
    hasSub exampl
      (Ev.path (Ev.readEv (chars "/home/user/lumen-lang/src_mini_php/lexer.rs"))) = false :=
  C10_theorem.1 fs1 inp0 _ (Or.inl (by decide))

set_option maxRecDepth 1000000 in
set_option maxHeartbeats 8000000 in
/-- C4 (code bug): evaluating the catalog at the failing inputs.  On spec
scenario 3 (`c4calls`: a registration entry point whose body is exactly
three token-registration calls) the calls are removed but the removal also
consumes the newline after the opening brace, the insertion regex of rule 14
no longer matches, and no marker comment is inserted; conversely on
`c4nocall` (no registration call at all, one predicate rewritten elsewhere)
the marker is inserted.  Both directions contradict the claim that the
marker is inserted exactly once iff at least one registration call was
removed. -/
theorem C4_theorem :
    RefactorParsers.refactor_content c4calls = c4callsOut
    ∧ hasSub markerText c4callsOut = false
    ∧ hasSub (chars "reg.tokens.") c4nocall = false
    ∧ RefactorParsers.refactor_content c4nocall = c4nocallOut
    ∧ hasSub markerText c4nocallOut = true :=
  ⟨rfl, rfl, rfl, rfl, rfl⟩

set_option maxRecDepth 1000000 in
set_option maxHeartbeats 8000000 in
/-- C7 counterexample: in `c7x` the only `Token::` occurrence sits inside a
registration call; rule 12 (which runs before the registration-call removal)
therefore keeps the import, rule 13 then removes the occurrence — the final
text keeps the import with no remaining reference, contradicting the claim
that the import is removed iff no reference remains in the transformed
file text. -/
theorem C7_counterexample :
    RefactorParsers.refactor_content c7x = c7xOut
    ∧ hasSub (chars "use crate::kernel::lexer::Token;") c7xOut = true
    ∧ hasSub (chars "Token::") c7xOut = false :=
  ⟨rfl, rfl, rfl⟩

set_option maxRecDepth 1000000 in
set_option maxHeartbeats 8000000 in
/-- C7 (amended): the dead-import rule removes the import exactly when, at
the point where it runs (after the pattern rewrites, before the
registration-call removal), the text contains no `Token::` occurrence and
contains the exact import line; whenever a `Token::` occurrence is present
at that stage the import is kept, and a file with the import and no
`Token::` at all loses the import. -/
theorem C7_theorem :
    (∀ c : List Char, hasSub (chars "Token::") c = true →
        RefactorParsers.rule12 c = c)
    ∧ RefactorParsers.refactor_content c7b = c7bOut := by
  refine ⟨?_, rfl⟩
  intro c h
  simp [RefactorParsers.rule12, h]

/-- Closed witness for C7's amended theorem at a concrete content. -/
theorem C7_witness :
    RefactorParsers.rule12 (chars "let t = Token::new();")
      = chars "let t = Token::new();" :=
  C7_theorem.1 (chars "let t = Token::new();") (by decide)

